import Mathlib

/-!
Verification development for the edge-next-starter configuration and
authentication wiring.

The embedding covers two source files:
  * `src/lib/config/env.ts` — the zod environment schema (`envSchema`), the
    cross-field refinement on the Google OAuth pair, and `validateEnv` with
    the production-secret guard and the host-trust override.
  * `src/lib/auth/config.ts` — the credentials `authorize` function, the
    `jwt` and `session` callbacks, and the `debug` flag of the policy object.

External collaborators (the JS `Number()` coercion used by `z.coerce.number`,
the zod URL validator, the persistence client and the password verifier)
are taken as explicit function parameters, since the repository does not
implement them.  JS truthiness on optional strings (empty string and
`undefined` are falsy) is modelled by `strTruthy`.
-/

namespace EdgeNext

/-- JS truthiness of a possibly-absent string: `undefined` and the empty
string are falsy, every other string is truthy. -/
def strTruthy : Option String → Bool
  | none => false
  | some s => !(s == "")

/-- A zod validation issue: field path and message, as produced by the
schema checks and by `superRefine`. -/
structure Issue where
  path : String
  message : String
deriving DecidableEq

/-- External JS primitives the schema relies on but the repository does not
implement: `Number()` coercion (`toNumber s = none` models NaN) and the zod
URL validator. -/
structure JsPrims where
  toNumber : String → Option Int
  isURL : String → Bool

/-- The ambient process configuration: the string-keyed environment
variables read by `env.ts` and `auth/config.ts`; `none` is an unset
variable. -/
structure ProcessEnv where
  NODE_ENV : Option String := none
  NEXTAUTH_SECRET : Option String := none
  NEXTAUTH_URL : Option String := none
  AUTH_TRUST_HOST : Option String := none
  GOOGLE_CLIENT_ID : Option String := none
  GOOGLE_CLIENT_SECRET : Option String := none
  RATE_LIMIT_ENABLED : Option String := none
  RATE_LIMIT_MAX_REQUESTS : Option String := none
  RATE_LIMIT_WINDOW_SECONDS : Option String := none
  ANALYTICS_ENABLED : Option String := none
  ANALYTICS_SINK : Option String := none
  LOG_LEVEL : Option String := none
  LOG_FORMAT : Option String := none
  LOG_INCLUDE_TIMESTAMP : Option String := none
  DATABASE_QUERY_TIMEOUT : Option String := none
  CACHE_DEFAULT_TTL : Option String := none
  ENABLE_PERFORMANCE_MONITORING : Option String := none
  SLOW_QUERY_THRESHOLD_MS : Option String := none
  CI : Option String := none
  NEXT_PHASE : Option String := none
  CF_PAGES : Option String := none
  VERCEL : Option String := none
deriving DecidableEq

/-- Run mode: `z.enum(['development', 'production', 'test'])`. -/
inductive NodeEnv
  | development
  | production
  | test
deriving DecidableEq

/-- Analytics backend selector: `z.enum(['log', 'kv', 'd1', 'engine'])`. -/
inductive AnalyticsSink
  | log
  | kv
  | d1
  | engine
deriving DecidableEq

/-- Log level: `z.enum(['DEBUG', 'INFO', 'WARN', 'ERROR'])`. -/
inductive LogLevel
  | DEBUG
  | INFO
  | WARN
  | ERROR
deriving DecidableEq

/-- Log format: `z.enum(['json', 'pretty'])`. -/
inductive LogFormat
  | json
  | pretty
deriving DecidableEq

/-- The validated configuration record (`type Env = z.infer<typeof envSchema>`),
fields in schema declaration order. -/
structure Env where
  NODE_ENV : NodeEnv
  NEXTAUTH_SECRET : String
  NEXTAUTH_URL : Option String
  AUTH_TRUST_HOST : Bool
  GOOGLE_CLIENT_ID : Option String
  GOOGLE_CLIENT_SECRET : Option String
  RATE_LIMIT_ENABLED : Bool
  RATE_LIMIT_MAX_REQUESTS : Int
  RATE_LIMIT_WINDOW_SECONDS : Int
  ANALYTICS_ENABLED : Bool
  ANALYTICS_SINK : AnalyticsSink
  LOG_LEVEL : LogLevel
  LOG_FORMAT : LogFormat
  LOG_INCLUDE_TIMESTAMP : Bool
  DATABASE_QUERY_TIMEOUT : Int
  CACHE_DEFAULT_TTL : Int
  ENABLE_PERFORMANCE_MONITORING : Bool
  SLOW_QUERY_THRESHOLD_MS : Int
deriving DecidableEq

/-- Field parser for `NODE_ENV`:
`z.enum(['development', 'production', 'test']).default('development')`. -/
def parseNodeEnv : Option String → Except Issue NodeEnv
  | none => .ok .development
  | some s =>
    if s = "development" then .ok .development
    else if s = "production" then .ok .production
    else if s = "test" then .ok .test
    else .error ⟨"NODE_ENV", "Invalid enum value"⟩

/-- Field parser for `NEXTAUTH_SECRET`:
`z.string().min(1, 'NEXTAUTH_SECRET is required').default('dev-secret')`. -/
def parseSecret : Option String → Except Issue String
  | none => .ok "dev-secret"
  | some s => if 1 ≤ s.length then .ok s else .error ⟨"NEXTAUTH_SECRET", "NEXTAUTH_SECRET is required"⟩

/-- Field parser for an optional URL-valued variable:
`z.string().url().optional()`. -/
def parseOptURL (isURL : String → Bool) (path : String) : Option String → Except Issue (Option String)
  | none => .ok none
  | some s => if isURL s then .ok (some s) else .error ⟨path, "Invalid url"⟩

/-- Field parser for the boolean flags:
`z.enum(['true', 'false']).default(d).transform(val => val === 'true')`. -/
def parseBoolFlag (path : String) (dflt : Bool) : Option String → Except Issue Bool
  | none => .ok dflt
  | some s =>
    if s = "true" then .ok true
    else if s = "false" then .ok false
    else .error ⟨path, "Invalid enum value"⟩

/-- Field parser for the optional Google OAuth strings:
`z.string().min(1, msg).optional()`. -/
def parseOptNonEmpty (path msg : String) : Option String → Except Issue (Option String)
  | none => .ok none
  | some s => if 1 ≤ s.length then .ok (some s) else .error ⟨path, msg⟩

/-- Field parser for the bounded numeric variables:
`z.coerce.number().min(lo).max(hi).default(dflt)`; `toNumber` is the JS
`Number()` coercion and `none` models NaN. -/
def parseBoundedNumber (toNumber : String → Option Int) (path : String) (lo hi dflt : Int) :
    Option String → Except Issue Int
  | none => .ok dflt
  | some s =>
    match toNumber s with
    | none => .error ⟨path, "Expected number, received nan"⟩
    | some n =>
      if n < lo then .error ⟨path, "Number must be greater than or equal to the minimum"⟩
      else if hi < n then .error ⟨path, "Number must be less than or equal to the maximum"⟩
      else .ok n

/-- Field parser for `ANALYTICS_SINK`:
`z.enum(['log', 'kv', 'd1', 'engine']).default('log')`. -/
def parseSink : Option String → Except Issue AnalyticsSink
  | none => .ok .log
  | some s =>
    if s = "log" then .ok .log
    else if s = "kv" then .ok .kv
    else if s = "d1" then .ok .d1
    else if s = "engine" then .ok .engine
    else .error ⟨"ANALYTICS_SINK", "Invalid enum value"⟩

/-- Field parser for `LOG_LEVEL`:
`z.enum(['DEBUG', 'INFO', 'WARN', 'ERROR']).default('INFO')`. -/
def parseLogLevel : Option String → Except Issue LogLevel
  | none => .ok .INFO
  | some s =>
    if s = "DEBUG" then .ok .DEBUG
    else if s = "INFO" then .ok .INFO
    else if s = "WARN" then .ok .WARN
    else if s = "ERROR" then .ok .ERROR
    else .error ⟨"LOG_LEVEL", "Invalid enum value"⟩

/-- Field parser for `LOG_FORMAT`:
`z.enum(['json', 'pretty']).default('json')`. -/
def parseLogFormat : Option String → Except Issue LogFormat
  | none => .ok .json
  | some s =>
    if s = "json" then .ok .json
    else if s = "pretty" then .ok .pretty
    else .error ⟨"LOG_FORMAT", "Invalid enum value"⟩

/-- Issue-accumulating application, the semantics of parsing the fields of a
zod object: field issues are collected left to right, and the constructor is
applied only when every field parsed. -/
def zApp {α β : Type} (f : Except (List Issue) (α → β)) (x : Except Issue α) :
    Except (List Issue) β :=
  match f, x with
  | .ok g, .ok a => .ok (g a)
  | .ok _, .error i => .error [i]
  | .error is, .ok _ => .error is
  | .error is, .error i => .error (is ++ [i])

/-- The base object schema `envSchema` (before `superRefine`): parse every
field of the process configuration in declaration order, accumulating
issues. -/
def envSchemaBase (p : JsPrims) (e : ProcessEnv) : Except (List Issue) Env :=
  zApp (zApp (zApp (zApp (zApp (zApp (zApp (zApp (zApp (zApp (zApp (zApp (zApp (zApp (zApp (zApp (zApp (zApp
    (Except.ok Env.mk)
    (parseNodeEnv e.NODE_ENV))
    (parseSecret e.NEXTAUTH_SECRET))
    (parseOptURL p.isURL "NEXTAUTH_URL" e.NEXTAUTH_URL))
    (parseBoolFlag "AUTH_TRUST_HOST" false e.AUTH_TRUST_HOST))
    (parseOptNonEmpty "GOOGLE_CLIENT_ID" "GOOGLE_CLIENT_ID must be a non-empty string" e.GOOGLE_CLIENT_ID))
    (parseOptNonEmpty "GOOGLE_CLIENT_SECRET" "GOOGLE_CLIENT_SECRET must be a non-empty string" e.GOOGLE_CLIENT_SECRET))
    (parseBoolFlag "RATE_LIMIT_ENABLED" true e.RATE_LIMIT_ENABLED))
    (parseBoundedNumber p.toNumber "RATE_LIMIT_MAX_REQUESTS" 1 10000 100 e.RATE_LIMIT_MAX_REQUESTS))
    (parseBoundedNumber p.toNumber "RATE_LIMIT_WINDOW_SECONDS" 1 3600 60 e.RATE_LIMIT_WINDOW_SECONDS))
    (parseBoolFlag "ANALYTICS_ENABLED" true e.ANALYTICS_ENABLED))
    (parseSink e.ANALYTICS_SINK))
    (parseLogLevel e.LOG_LEVEL))
    (parseLogFormat e.LOG_FORMAT))
    (parseBoolFlag "LOG_INCLUDE_TIMESTAMP" true e.LOG_INCLUDE_TIMESTAMP))
    (parseBoundedNumber p.toNumber "DATABASE_QUERY_TIMEOUT" 1000 30000 5000 e.DATABASE_QUERY_TIMEOUT))
    (parseBoundedNumber p.toNumber "CACHE_DEFAULT_TTL" 1 86400 3600 e.CACHE_DEFAULT_TTL))
    (parseBoolFlag "ENABLE_PERFORMANCE_MONITORING" true e.ENABLE_PERFORMANCE_MONITORING))
    (parseBoundedNumber p.toNumber "SLOW_QUERY_THRESHOLD_MS" 100 10000 1000 e.SLOW_QUERY_THRESHOLD_MS)

/-- The condition of the `superRefine` cross-field rule, with JS truthiness
of the parsed optional strings:
`(value.GOOGLE_CLIENT_ID && !value.GOOGLE_CLIENT_SECRET) || (!value.GOOGLE_CLIENT_ID && value.GOOGLE_CLIENT_SECRET)`. -/
def googleRefineTriggers (id secret : Option String) : Bool :=
  (strTruthy id && !strTruthy secret) || (!strTruthy id && strTruthy secret)

/-- `envSchema.parse`: base object parse, then the `superRefine` cross-field
rule, which runs only when every field parsed and adds its single issue. -/
def envSchemaParse (p : JsPrims) (e : ProcessEnv) : Except (List Issue) Env :=
  match envSchemaBase p e with
  | .error is => .error is
  | .ok v =>
    if googleRefineTriggers v.GOOGLE_CLIENT_ID v.GOOGLE_CLIENT_SECRET then
      .error [⟨"GOOGLE_CLIENT_ID", "GOOGLE_CLIENT_ID and GOOGLE_CLIENT_SECRET must be provided together"⟩]
    else .ok v

/-- The two errors `validateEnv` can raise: the wrapped zod failure and the
production-secret guard error. -/
inductive EnvError
  | schemaError (issues : List Issue)
  | secretError
deriving DecidableEq

/-- The host-trust override in `validateEnv`: when the parsed flag is false,
the variable was not explicitly set (JS truthiness), and a hosting-platform
signal (`CF_PAGES` or `VERCEL`) is present, force the flag to true. -/
def applyTrustHostOverride (e : ProcessEnv) (parsed0 : Env) : Env :=
  if parsed0.AUTH_TRUST_HOST == false && !strTruthy e.AUTH_TRUST_HOST
      && (strTruthy e.CF_PAGES || strTruthy e.VERCEL) then
    { parsed0 with AUTH_TRUST_HOST := true }
  else parsed0

/-- The production-secret guard condition of `validateEnv`: the parsed
secret still equals the placeholder, the parsed run mode is production, and
the process is in neither CI (`CI === 'true'`) nor the build phase
(`NEXT_PHASE === 'phase-production-build'`). -/
def secretGuardFires (e : ProcessEnv) (parsed : Env) : Bool :=
  parsed.NEXTAUTH_SECRET == "dev-secret" && parsed.NODE_ENV == NodeEnv.production
    && !(e.CI == some "true") && !(e.NEXT_PHASE == some "phase-production-build")

/-- `validateEnv` from `env.ts`: parse the schema, apply the host-trust
override, then fail if the production-secret guard fires; a zod failure is
re-raised as the wrapped startup error. -/
def validateEnv (p : JsPrims) (e : ProcessEnv) : Except EnvError Env :=
  match envSchemaParse p e with
  | .error is => .error (.schemaError is)
  | .ok parsed0 =>
    if secretGuardFires e (applyTrustHostOverride e parsed0) then
      .error .secretError
    else
      .ok (applyTrustHostOverride e parsed0)

/-- Whether an `Except` computation succeeded. -/
def isOkE {ε α : Type} : Except ε α → Bool
  | .ok _ => true
  | .error _ => false

/-- A stored identity record as read from the persistence layer
(`prisma.user.findUnique`): id, email, optional display fields and the
optional password hash. -/
structure User where
  id : Int
  email : String
  name : Option String
  image : Option String
  password : Option String
deriving DecidableEq

/-- The credentials submitted to the credentials provider; either field may
be absent. -/
structure Credentials where
  email : Option String
  password : Option String
deriving DecidableEq

/-- The minimal identity projection returned by `authorize` on success. -/
structure AuthUser where
  id : String
  email : String
  name : Option String
  image : Option String
deriving DecidableEq

/-- The credentials `authorize` function from `auth/config.ts`, with the
persistence lookup `db` (find user by unique email) and the external
password verifier as parameters; an `Except.error` is a thrown `Error` and
carries its message. -/
def authorize (db : String → Option User) (verify : String → String → Bool)
    (credentials : Option Credentials) : Except String AuthUser :=
  let email := credentials.bind Credentials.email
  let password := credentials.bind Credentials.password
  if !strTruthy email || !strTruthy password then
    .error "Please provide email and password"
  else
    match db (email.getD "") with
    | none => .error "Invalid email or password"
    | some user =>
      if !strTruthy user.password then
        .error "Invalid email or password"
      else if verify (password.getD "") (user.password.getD "") then
        .ok { id := toString user.id, email := user.email, name := user.name, image := user.image }
      else
        .error "Invalid email or password"

/-- Instrumented rendering of `authorize` that also returns the list of
emails looked up in the persistence layer, mirroring the same control
flow. -/
def authorizeWithTrace (db : String → Option User) (verify : String → String → Bool)
    (credentials : Option Credentials) : Except String AuthUser × List String :=
  let email := credentials.bind Credentials.email
  let password := credentials.bind Credentials.password
  if !strTruthy email || !strTruthy password then
    (.error "Please provide email and password", [])
  else
    match db (email.getD "") with
    | none => (.error "Invalid email or password", [email.getD ""])
    | some user =>
      if !strTruthy user.password then
        (.error "Invalid email or password", [email.getD ""])
      else if verify (password.getD "") (user.password.getD "") then
        (.ok { id := toString user.id, email := user.email, name := user.name, image := user.image },
         [email.getD ""])
      else
        (.error "Invalid email or password", [email.getD ""])

/-- The long-lived JWT: the four fields the callback writes, plus the other
claims of the token, which the callback never touches. -/
structure Token where
  id : Option String := none
  email : Option String := none
  name : Option String := none
  picture : Option String := none
  extra : List (String × String) := []
deriving DecidableEq

/-- The `jwt` callback: on first authentication (`user` present) copy the
identity fields into the token; otherwise return the token unchanged. -/
def jwt (token : Token) (user : Option AuthUser) : Token :=
  match user with
  | some u => { token with id := some u.id, email := some u.email, name := u.name, picture := u.image }
  | none => token

/-- The user projection of the outward-facing session object; every field is
possibly absent, as on the JS object. -/
structure SessionUser where
  id : Option String := none
  email : Option String := none
  name : Option String := none
  image : Option String := none
deriving DecidableEq

/-- The outward-facing session object: its user projection and its expiry
string, which the callback never touches. -/
structure Session where
  user : Option SessionUser := none
  expires : String := ""
deriving DecidableEq

/-- The `session` callback: when a token and a session user are present,
copy the token fields into the session user projection; otherwise return
the session unchanged. -/
def session (s : Session) (token : Option Token) : Session :=
  match token, s.user with
  | some t, some u =>
    { s with user := some { u with id := t.id, email := t.email, name := t.name, image := t.picture } }
  | _, _ => s

/-- The part of the declarative `authConfig` policy object relevant here:
the host-trust flag comes from the validated record, and `debug` compares
the RAW `process.env.NODE_ENV` with the string literal, exactly as in
`debug: process.env.NODE_ENV === 'development'`. -/
structure AuthPolicy where
  trustHost : Bool
  sessionMaxAge : Nat
  debug : Bool
deriving DecidableEq

/-- Construct the policy object from the raw process configuration and the
validated record (`authConfig` in `auth/config.ts`). -/
def mkAuthConfig (e : ProcessEnv) (validated : Env) : AuthPolicy :=
  { trustHost := validated.AUTH_TRUST_HOST
    sessionMaxAge := 30 * 24 * 60 * 60
    debug := e.NODE_ENV == some "development" }

/-- Concrete choice of the external JS primitives, used to instantiate the
universally quantified theorems on explicit inputs. -/
def testPrims : JsPrims where
  toNumber := fun s => if s = "0" then some 0 else none
  isURL := fun _ => true

/-- The configuration record produced from an empty process environment:
every field carries its schema default. -/
def defaultParsedEnv : Env where
  NODE_ENV := .development
  NEXTAUTH_SECRET := "dev-secret"
  NEXTAUTH_URL := none
  AUTH_TRUST_HOST := false
  GOOGLE_CLIENT_ID := none
  GOOGLE_CLIENT_SECRET := none
  RATE_LIMIT_ENABLED := true
  RATE_LIMIT_MAX_REQUESTS := 100
  RATE_LIMIT_WINDOW_SECONDS := 60
  ANALYTICS_ENABLED := true
  ANALYTICS_SINK := .log
  LOG_LEVEL := .INFO
  LOG_FORMAT := .json
  LOG_INCLUDE_TIMESTAMP := true
  DATABASE_QUERY_TIMEOUT := 5000
  CACHE_DEFAULT_TTL := 3600
  ENABLE_PERFORMANCE_MONITORING := true
  SLOW_QUERY_THRESHOLD_MS := 1000

/-- A stored identity record used to instantiate the authentication
theorems. -/
def userW : User where
  id := 7
  email := "user@example.com"
  name := some "Sample User"
  image := none
  password := some "storedhash"

/-- A persistence lookup holding exactly `userW`. -/
def dbW : String → Option User :=
  fun s => if s = "user@example.com" then some userW else none

/-- A persistence lookup holding no records. -/
def dbEmpty : String → Option User := fun _ => none

/-- A password verifier that rejects everything. -/
def verifyNever : String → String → Bool := fun _ _ => false

/-- A password verifier that accepts everything. -/
def verifyAlways : String → String → Bool := fun _ _ => true

/-- Decidable equality on `Except`, used to evaluate the embedding on
concrete inputs. -/
instance instDecEqExcept {ε α : Type} [DecidableEq ε] [DecidableEq α] : DecidableEq (Except ε α)
  | .ok a, .ok b =>
    if h : a = b then .isTrue (congrArg Except.ok h)
    else .isFalse (fun hc => h (Except.ok.inj hc))
  | .ok _, .error _ => .isFalse (fun hc => Except.noConfusion hc)
  | .error _, .ok _ => .isFalse (fun hc => Except.noConfusion hc)
  | .error a, .error b =>
    if h : a = b then .isTrue (congrArg Except.error h)
    else .isFalse (fun hc => h (Except.error.inj hc))

/-- Inversion for `zApp`: a successful application comes from a successful
function part and a successful field parse. -/
theorem zApp_ok {α β : Type} {f : Except (List Issue) (α → β)} {x : Except Issue α} {b : β}
    (h : zApp f x = .ok b) : ∃ g a, f = .ok g ∧ x = .ok a ∧ g a = b := by
  cases f with
  | ok g =>
    cases x with
    | ok a => exact ⟨g, a, rfl, rfl, by simpa [zApp] using h⟩
    | error i => simp [zApp] at h
  | error is => cases x <;> simp [zApp] at h

/-- Inversion for the base object schema: a successful parse determines
every field of the record by its own field parser. -/
theorem envSchemaBase_ok {p : JsPrims} {e : ProcessEnv} {v : Env}
    (h : envSchemaBase p e = .ok v) :
    parseNodeEnv e.NODE_ENV = .ok v.NODE_ENV ∧
    parseSecret e.NEXTAUTH_SECRET = .ok v.NEXTAUTH_SECRET ∧
    parseOptURL p.isURL "NEXTAUTH_URL" e.NEXTAUTH_URL = .ok v.NEXTAUTH_URL ∧
    parseBoolFlag "AUTH_TRUST_HOST" false e.AUTH_TRUST_HOST = .ok v.AUTH_TRUST_HOST ∧
    parseOptNonEmpty "GOOGLE_CLIENT_ID" "GOOGLE_CLIENT_ID must be a non-empty string" e.GOOGLE_CLIENT_ID = .ok v.GOOGLE_CLIENT_ID ∧
    parseOptNonEmpty "GOOGLE_CLIENT_SECRET" "GOOGLE_CLIENT_SECRET must be a non-empty string" e.GOOGLE_CLIENT_SECRET = .ok v.GOOGLE_CLIENT_SECRET ∧
    parseBoolFlag "RATE_LIMIT_ENABLED" true e.RATE_LIMIT_ENABLED = .ok v.RATE_LIMIT_ENABLED ∧
    parseBoundedNumber p.toNumber "RATE_LIMIT_MAX_REQUESTS" 1 10000 100 e.RATE_LIMIT_MAX_REQUESTS = .ok v.RATE_LIMIT_MAX_REQUESTS ∧
    parseBoundedNumber p.toNumber "RATE_LIMIT_WINDOW_SECONDS" 1 3600 60 e.RATE_LIMIT_WINDOW_SECONDS = .ok v.RATE_LIMIT_WINDOW_SECONDS ∧
    parseBoolFlag "ANALYTICS_ENABLED" true e.ANALYTICS_ENABLED = .ok v.ANALYTICS_ENABLED ∧
    parseSink e.ANALYTICS_SINK = .ok v.ANALYTICS_SINK ∧
    parseLogLevel e.LOG_LEVEL = .ok v.LOG_LEVEL ∧
    parseLogFormat e.LOG_FORMAT = .ok v.LOG_FORMAT ∧
    parseBoolFlag "LOG_INCLUDE_TIMESTAMP" true e.LOG_INCLUDE_TIMESTAMP = .ok v.LOG_INCLUDE_TIMESTAMP ∧
    parseBoundedNumber p.toNumber "DATABASE_QUERY_TIMEOUT" 1000 30000 5000 e.DATABASE_QUERY_TIMEOUT = .ok v.DATABASE_QUERY_TIMEOUT ∧
    parseBoundedNumber p.toNumber "CACHE_DEFAULT_TTL" 1 86400 3600 e.CACHE_DEFAULT_TTL = .ok v.CACHE_DEFAULT_TTL ∧
    parseBoolFlag "ENABLE_PERFORMANCE_MONITORING" true e.ENABLE_PERFORMANCE_MONITORING = .ok v.ENABLE_PERFORMANCE_MONITORING ∧
    parseBoundedNumber p.toNumber "SLOW_QUERY_THRESHOLD_MS" 100 10000 1000 e.SLOW_QUERY_THRESHOLD_MS = .ok v.SLOW_QUERY_THRESHOLD_MS := by
  unfold envSchemaBase at h
  obtain ⟨G18, b18, h17, r18, q18⟩ := zApp_ok h
  obtain ⟨G17, b17, h16, r17, q17⟩ := zApp_ok h17
  obtain ⟨G16, b16, h15, r16, q16⟩ := zApp_ok h16
  obtain ⟨G15, b15, h14, r15, q15⟩ := zApp_ok h15
  obtain ⟨G14, b14, h13, r14, q14⟩ := zApp_ok h14
  obtain ⟨G13, b13, h12, r13, q13⟩ := zApp_ok h13
  obtain ⟨G12, b12, h11, r12, q12⟩ := zApp_ok h12
  obtain ⟨G11, b11, h10, r11, q11⟩ := zApp_ok h11
  obtain ⟨G10, b10, h9, r10, q10⟩ := zApp_ok h10
  obtain ⟨G9, b9, h8, r9, q9⟩ := zApp_ok h9
  obtain ⟨G8, b8, h7, r8, q8⟩ := zApp_ok h8
  obtain ⟨G7, b7, h6, r7, q7⟩ := zApp_ok h7
  obtain ⟨G6, b6, h5, r6, q6⟩ := zApp_ok h6
  obtain ⟨G5, b5, h4, r5, q5⟩ := zApp_ok h5
  obtain ⟨G4, b4, h3, r4, q4⟩ := zApp_ok h4
  obtain ⟨G3, b3, h2, r3, q3⟩ := zApp_ok h3
  obtain ⟨G2, b2, h1, r2, q2⟩ := zApp_ok h2
  obtain ⟨G1, b1, h0, r1, q1⟩ := zApp_ok h1
  injection h0 with hG
  subst hG
  subst q1
  subst q2
  subst q3
  subst q4
  subst q5
  subst q6
  subst q7
  subst q8
  subst q9
  subst q10
  subst q11
  subst q12
  subst q13
  subst q14
  subst q15
  subst q16
  subst q17
  subst q18
  exact ⟨r1, r2, r3, r4, r5, r6, r7, r8, r9, r10, r11, r12, r13, r14, r15, r16, r17, r18⟩

/-- Inversion for `envSchemaParse`: success means the base parse succeeded
on the same record and the cross-field rule did not trigger. -/
theorem envSchemaParse_ok {p : JsPrims} {e : ProcessEnv} {v : Env}
    (h : envSchemaParse p e = .ok v) :
    envSchemaBase p e = .ok v ∧
    googleRefineTriggers v.GOOGLE_CLIENT_ID v.GOOGLE_CLIENT_SECRET = false := by
  unfold envSchemaParse at h
  cases hb : envSchemaBase p e with
  | error is => rw [hb] at h; simp at h
  | ok w =>
    rw [hb] at h
    cases hg : googleRefineTriggers w.GOOGLE_CLIENT_ID w.GOOGLE_CLIENT_SECRET with
    | true => simp [hg] at h
    | false =>
      simp [hg] at h
      subst h
      exact ⟨rfl, hg⟩

/-- The host-trust override changes only the `AUTH_TRUST_HOST` field. -/
theorem applyTrustHostOverride_fields (e : ProcessEnv) (w : Env) :
    (applyTrustHostOverride e w).NODE_ENV = w.NODE_ENV ∧
    (applyTrustHostOverride e w).NEXTAUTH_SECRET = w.NEXTAUTH_SECRET ∧
    (applyTrustHostOverride e w).GOOGLE_CLIENT_ID = w.GOOGLE_CLIENT_ID ∧
    (applyTrustHostOverride e w).GOOGLE_CLIENT_SECRET = w.GOOGLE_CLIENT_SECRET := by
  unfold applyTrustHostOverride
  split <;> simp

/-- A truthy optional string is a present, non-empty string. -/
theorem strTruthy_some {s : String} (h : s ≠ "") : strTruthy (some s) = true := by
  simp [strTruthy, h]

/-- Inversion for `parseNodeEnv`: the production run mode comes only from
the literal string. -/
theorem parseNodeEnv_ok_production {o : Option String}
    (h : parseNodeEnv o = .ok NodeEnv.production) : o = some "production" := by
  cases o with
  | none => simp [parseNodeEnv] at h
  | some s =>
    simp only [parseNodeEnv] at h
    split_ifs at h with h1 h2 h3
    · simp at h
    · rw [h2]
    · simp at h

/-- Inversion for `parseNodeEnv`: a present input parsing to development is
the literal string. -/
theorem parseNodeEnv_ok_development_some {s : String}
    (h : parseNodeEnv (some s) = .ok NodeEnv.development) : s = "development" := by
  simp only [parseNodeEnv] at h
  split_ifs at h with h1 h2 h3
  · exact h1
  · simp at h
  · simp at h

/-- Inversion for `parseSecret`: the placeholder secret comes from an unset
variable (the default) or from the placeholder itself. -/
theorem parseSecret_ok_dev {o : Option String}
    (h : parseSecret o = .ok "dev-secret") : o = none ∨ o = some "dev-secret" := by
  cases o with
  | none => exact Or.inl rfl
  | some s =>
    simp only [parseSecret] at h
    split_ifs at h with h1
    injection h with hs
    exact Or.inr (by rw [hs])

/-- Evaluation of `parseSecret` on the placeholder inputs. -/
theorem parseSecret_eval :
    parseSecret none = .ok "dev-secret" ∧
    parseSecret (some "dev-secret") = .ok "dev-secret" := by
  exact ⟨rfl, rfl⟩

/-- Inversion for `parseOptNonEmpty` on an absent input. -/
theorem parseOptNonEmpty_ok_none {path msg : String} {v : Option String}
    (h : parseOptNonEmpty path msg none = .ok v) : v = none := by
  simp only [parseOptNonEmpty] at h
  injection h with hv
  exact hv.symm

/-- Inversion for `parseOptNonEmpty` on a present input: the value passes
through and is non-empty. -/
theorem parseOptNonEmpty_ok_some {path msg s : String} {v : Option String}
    (h : parseOptNonEmpty path msg (some s) = .ok v) : v = some s ∧ s ≠ "" := by
  simp only [parseOptNonEmpty] at h
  split_ifs at h with h1
  injection h with hv
  refine ⟨hv.symm, ?_⟩
  intro hs
  subst hs
  exact absurd h1 (by decide)

/-- Inversion for `validateEnv`: success means the schema parse succeeded
and the returned record is the parsed one with the host-trust override
applied. -/
theorem validateEnv_ok_inv {p : JsPrims} {e : ProcessEnv} {v : Env}
    (h : validateEnv p e = .ok v) :
    ∃ w, envSchemaParse p e = .ok w ∧ v = applyTrustHostOverride e w := by
  unfold validateEnv at h
  cases hb : envSchemaParse p e with
  | error is => rw [hb] at h; simp at h
  | ok w =>
    rw [hb] at h
    cases hg : secretGuardFires e (applyTrustHostOverride e w) with
    | true => simp [hg] at h
    | false =>
      simp [hg] at h
      exact ⟨w, rfl, h.symm⟩

/-- A failed base parse propagates through `envSchemaParse`. -/
theorem envSchemaParse_base_error {p : JsPrims} {e : ProcessEnv} {is : List Issue}
    (h : envSchemaBase p e = .error is) : envSchemaParse p e = .error is := by
  unfold envSchemaParse
  rw [h]

/-- A failed schema parse propagates through `validateEnv` as the wrapped
startup error. -/
theorem validateEnv_parse_error {p : JsPrims} {e : ProcessEnv} {is : List Issue}
    (h : envSchemaParse p e = .error is) :
    validateEnv p e = .error (EnvError.schemaError is) := by
  unfold validateEnv
  rw [h]

/-- On a successful schema parse, `validateEnv` reduces to the guard test
on the override-applied record. -/
theorem validateEnv_parse_ok {p : JsPrims} {e : ProcessEnv} {w : Env}
    (h : envSchemaParse p e = .ok w) :
    validateEnv p e =
      if secretGuardFires e (applyTrustHostOverride e w) then .error EnvError.secretError
      else .ok (applyTrustHostOverride e w) := by
  unfold validateEnv
  rw [h]

/-- C2: for every authentication attempt with a non-empty email and
password, `authorize` fails with the identical message
`Invalid email or password` in all three failure cases: no record for the
email, a record without a stored password hash, and a record whose hash the
external verifier rejects. -/
theorem authorize_generic_error (db : String → Option User) (verify : String → String → Bool)
    (email pwd : String) (he : email ≠ "") (hp : pwd ≠ "") :
    (db email = none →
      authorize db verify (some ⟨some email, some pwd⟩) = .error "Invalid email or password") ∧
    (∀ u : User, db email = some u → strTruthy u.password = false →
      authorize db verify (some ⟨some email, some pwd⟩) = .error "Invalid email or password") ∧
    (∀ (u : User) (hs : String), db email = some u → u.password = some hs → verify pwd hs = false →
      authorize db verify (some ⟨some email, some pwd⟩) = .error "Invalid email or password") := by
  have hte : strTruthy (some email) = true := strTruthy_some he
  have htp : strTruthy (some pwd) = true := strTruthy_some hp
  refine ⟨?_, ?_, ?_⟩
  · intro hdb
    simp [authorize, hte, htp, hdb]
  · intro u hdb hpw
    simp [authorize, hte, htp, hdb, hpw]
  · intro u hs hdb hpw hv
    by_cases hse : hs = ""
    · subst hse
      simp [authorize, strTruthy, he, hp, hdb, hpw]
    · simp [authorize, hte, htp, hdb, hpw, hv, strTruthy_some hse]

/-- C2 witness: the generic error on concrete inputs, once with no record
for the email and once with a record whose hash the verifier rejects. -/
theorem authorize_generic_error_witness :
    authorize dbEmpty verifyNever (some ⟨some "user@example.com", some "pw"⟩) =
      .error "Invalid email or password" ∧
    authorize dbW verifyNever (some ⟨some "user@example.com", some "pw"⟩) =
      .error "Invalid email or password" := by
  constructor
  · exact (authorize_generic_error dbEmpty verifyNever "user@example.com" "pw"
      (by decide) (by decide)).1 rfl
  · exact (authorize_generic_error dbW verifyNever "user@example.com" "pw"
      (by decide) (by decide)).2.2 userW "storedhash" (by decide) rfl rfl

/-- C5: when a record for the email exists, it has a stored (truthy)
password hash, and the external verifier accepts the supplied password
against that hash, `authorize` returns exactly the minimal identity
projection of the stored record, with the id converted to a string. -/
theorem authorize_success_projection (db : String → Option User) (verify : String → String → Bool)
    (email pwd : String) (he : email ≠ "") (hp : pwd ≠ "")
    (u : User) (hdb : db email = some u)
    (hs : String) (hpw : u.password = some hs) (hsne : hs ≠ "")
    (hv : verify pwd hs = true) :
    authorize db verify (some ⟨some email, some pwd⟩) =
      .ok { id := toString u.id, email := u.email, name := u.name, image := u.image } := by
  simp [authorize, strTruthy_some he, strTruthy_some hp, hdb, hpw, strTruthy_some hsne, hv]

/-- C5 witness: the successful projection on a concrete record. -/
theorem authorize_success_projection_witness :
    authorize dbW verifyAlways (some ⟨some "user@example.com", some "pw"⟩) =
      .ok { id := toString userW.id, email := userW.email, name := userW.name, image := userW.image } :=
  authorize_success_projection dbW verifyAlways "user@example.com" "pw"
    (by decide) (by decide) userW (by decide) "storedhash" rfl (by decide) rfl

/-- C6: the `jwt` callback copies the freshly authenticated identity fields
(id, email, name, image) into the token when an identity is present, and
returns the input token unchanged in every field otherwise. -/
theorem jwt_copy_or_passthrough :
    (∀ (t : Token) (u : AuthUser),
      jwt t (some u) =
        { t with id := some u.id, email := some u.email, name := u.name, picture := u.image }) ∧
    (∀ t : Token, jwt t none = t) :=
  ⟨fun _ _ => rfl, fun _ => rfl⟩

/-- C7: the `session` callback is idempotent: materializing the session
twice from the same token yields the same user projection as materializing
it once. -/
theorem session_callback_idempotent (s : Session) (t : Option Token) :
    (session (session s t) t).user = (session s t).user := by
  cases t with
  | none => rfl
  | some tk =>
    cases hu : s.user with
    | none => simp [session, hu]
    | some u => simp [session, hu]

/-- C10: when the supplied email or password is absent or empty (falsy),
`authorize` fails with the distinct message
`Please provide email and password` and performs no lookup in the
persistence layer. -/
theorem authorize_missing_credentials (db : String → Option User) (verify : String → String → Bool)
    (credentials : Option Credentials)
    (h : strTruthy (credentials.bind Credentials.email) = false ∨
         strTruthy (credentials.bind Credentials.password) = false) :
    authorize db verify credentials = .error "Please provide email and password" ∧
    authorizeWithTrace db verify credentials = (.error "Please provide email and password", []) ∧
    "Please provide email and password" ≠ "Invalid email or password" := by
  rcases h with h | h
  · exact ⟨by simp [authorize, h], by simp [authorizeWithTrace, h], by decide⟩
  · exact ⟨by simp [authorize, h], by simp [authorizeWithTrace, h], by decide⟩

/-- C1: whenever the secret variable is unset (defaulting to the
placeholder) or set to the placeholder, the run mode variable is
`production`, and neither `CI='true'` nor
`NEXT_PHASE='phase-production-build'` holds, `validateEnv` raises an error
instead of returning a record; and whenever at least one of the three
conditions fails, the production-secret guard does not fire. -/
theorem production_secret_guard (p : JsPrims) (e : ProcessEnv) :
    ((e.NEXTAUTH_SECRET = none ∨ e.NEXTAUTH_SECRET = some "dev-secret") →
      e.NODE_ENV = some "production" →
      e.CI ≠ some "true" →
      e.NEXT_PHASE ≠ some "phase-production-build" →
      isOkE (validateEnv p e) = false) ∧
    (¬((e.NEXTAUTH_SECRET = none ∨ e.NEXTAUTH_SECRET = some "dev-secret") ∧
        e.NODE_ENV = some "production" ∧
        e.CI ≠ some "true" ∧
        e.NEXT_PHASE ≠ some "phase-production-build") →
      validateEnv p e ≠ Except.error EnvError.secretError) := by
  constructor
  · intro hsec hnode hci hbp
    cases hq : envSchemaParse p e with
    | error is => rw [validateEnv_parse_error hq]; rfl
    | ok w =>
      obtain ⟨hb, -⟩ := envSchemaParse_ok hq
      obtain ⟨c1, c2, -⟩ := envSchemaBase_ok hb
      rw [hnode] at c1
      have hpn : parseNodeEnv (some "production") = .ok NodeEnv.production := by decide
      rw [hpn] at c1
      have hwn : w.NODE_ENV = NodeEnv.production := (Except.ok.inj c1).symm
      have hws : w.NEXTAUTH_SECRET = "dev-secret" := by
        rcases hsec with hx | hx
        · rw [hx, parseSecret_eval.1] at c2
          exact (Except.ok.inj c2).symm
        · rw [hx, parseSecret_eval.2] at c2
          exact (Except.ok.inj c2).symm
      have hguard : secretGuardFires e (applyTrustHostOverride e w) = true := by
        obtain ⟨f1, f2, -, -⟩ := applyTrustHostOverride_fields e w
        unfold secretGuardFires
        rw [f1, f2, hwn, hws]
        simp [hci, hbp]
      rw [validateEnv_parse_ok hq, hguard]
      rfl
  · intro hnot heq
    apply hnot
    cases hq : envSchemaParse p e with
    | error is =>
      rw [validateEnv_parse_error hq] at heq
      simp at heq
    | ok w =>
      obtain ⟨hb, -⟩ := envSchemaParse_ok hq
      obtain ⟨c1, c2, -⟩ := envSchemaBase_ok hb
      rw [validateEnv_parse_ok hq] at heq
      cases hg : secretGuardFires e (applyTrustHostOverride e w) with
      | false => simp [hg] at heq
      | true =>
        obtain ⟨f1, f2, -, -⟩ := applyTrustHostOverride_fields e w
        unfold secretGuardFires at hg
        rw [f1, f2] at hg
        simp at hg
        obtain ⟨⟨⟨hsec, hnode⟩, hci⟩, hbp⟩ := hg
        refine ⟨Or.imp id ?_ (parseSecret_ok_dev ?_), parseNodeEnv_ok_production ?_, hci, hbp⟩
        · exact id
        · rw [hsec] at c2
          exact c2
        · rw [hnode] at c1
          exact c1

/-- C1 witness: a production configuration with the defaulted placeholder
secret fails, and the same configuration inside CI does not hit the
guard. -/
theorem production_secret_guard_witness :
    isOkE (validateEnv testPrims { NODE_ENV := some "production" }) = false ∧
    validateEnv testPrims { NODE_ENV := some "production", NEXTAUTH_SECRET := some "dev-secret", CI := some "true" } ≠
      Except.error EnvError.secretError := by
  constructor
  · exact (production_secret_guard testPrims { NODE_ENV := some "production" }).1
      (Or.inl rfl) rfl (by decide) (by decide)
  · exact (production_secret_guard testPrims
      { NODE_ENV := some "production", NEXTAUTH_SECRET := some "dev-secret", CI := some "true" }).2
      (fun hc => hc.2.2.1 rfl)

/-- C3: providing exactly one of the Google OAuth client id and secret
makes `envSchema` validation fail, while providing both or neither never
triggers the cross-field `superRefine` rule. -/
theorem google_pair_validation (p : JsPrims) (e : ProcessEnv) :
    (e.GOOGLE_CLIENT_ID.isSome ≠ e.GOOGLE_CLIENT_SECRET.isSome →
      isOkE (envSchemaParse p e) = false) ∧
    (e.GOOGLE_CLIENT_ID.isSome = e.GOOGLE_CLIENT_SECRET.isSome →
      ∀ v : Env, envSchemaBase p e = .ok v →
        googleRefineTriggers v.GOOGLE_CLIENT_ID v.GOOGLE_CLIENT_SECRET = false) := by
  constructor
  · intro hne
    cases hq : envSchemaParse p e with
    | error is => rfl
    | ok v =>
      exfalso
      obtain ⟨hb, htrig⟩ := envSchemaParse_ok hq
      obtain ⟨-, -, -, -, c5, c6, -⟩ := envSchemaBase_ok hb
      cases hid : e.GOOGLE_CLIENT_ID with
      | none =>
        cases hst : e.GOOGLE_CLIENT_SECRET with
        | none => rw [hid, hst] at hne; exact hne rfl
        | some s2 =>
          rw [hid] at c5
          rw [hst] at c6
          have h5 := parseOptNonEmpty_ok_none c5
          obtain ⟨h6, h6ne⟩ := parseOptNonEmpty_ok_some c6
          rw [h5, h6] at htrig
          unfold googleRefineTriggers at htrig
          rw [strTruthy_some h6ne] at htrig
          simp [strTruthy] at htrig
      | some s1 =>
        cases hst : e.GOOGLE_CLIENT_SECRET with
        | none =>
          rw [hid] at c5
          rw [hst] at c6
          obtain ⟨h5, h5ne⟩ := parseOptNonEmpty_ok_some c5
          have h6 := parseOptNonEmpty_ok_none c6
          rw [h5, h6] at htrig
          unfold googleRefineTriggers at htrig
          rw [strTruthy_some h5ne] at htrig
          simp [strTruthy] at htrig
        | some s2 => rw [hid, hst] at hne; exact hne rfl
  · intro hsame v hb
    obtain ⟨-, -, -, -, c5, c6, -⟩ := envSchemaBase_ok hb
    cases hid : e.GOOGLE_CLIENT_ID with
    | none =>
      cases hst : e.GOOGLE_CLIENT_SECRET with
      | none =>
        rw [hid] at c5
        rw [hst] at c6
        rw [parseOptNonEmpty_ok_none c5, parseOptNonEmpty_ok_none c6]
        rfl
      | some s2 => rw [hid, hst] at hsame; simp at hsame
    | some s1 =>
      cases hst : e.GOOGLE_CLIENT_SECRET with
      | none => rw [hid, hst] at hsame; simp at hsame
      | some s2 =>
        rw [hid] at c5
        rw [hst] at c6
        obtain ⟨h5, h5ne⟩ := parseOptNonEmpty_ok_some c5
        obtain ⟨h6, h6ne⟩ := parseOptNonEmpty_ok_some c6
        rw [h5, h6]
        unfold googleRefineTriggers
        rw [strTruthy_some h5ne, strTruthy_some h6ne]
        rfl

/-- C3 witness: a lone client id fails validation, and the parsed record
holding both id and secret does not trigger the cross-field rule. -/
theorem google_pair_validation_witness :
    isOkE (envSchemaParse testPrims { GOOGLE_CLIENT_ID := some "gid" }) = false ∧
    googleRefineTriggers
      ({ defaultParsedEnv with GOOGLE_CLIENT_ID := some "gid", GOOGLE_CLIENT_SECRET := some "gsec" } : Env).GOOGLE_CLIENT_ID
      ({ defaultParsedEnv with GOOGLE_CLIENT_ID := some "gid", GOOGLE_CLIENT_SECRET := some "gsec" } : Env).GOOGLE_CLIENT_SECRET = false := by
  constructor
  · exact (google_pair_validation testPrims { GOOGLE_CLIENT_ID := some "gid" }).1 (by decide)
  · exact (google_pair_validation testPrims
      { GOOGLE_CLIENT_ID := some "gid", GOOGLE_CLIENT_SECRET := some "gsec" }).2 (by decide)
      { defaultParsedEnv with GOOGLE_CLIENT_ID := some "gid", GOOGLE_CLIENT_SECRET := some "gsec" }
      (by decide)

/-- C4: on any successful `envSchema` parse, every defaulted variable that
is absent in the process configuration receives exactly its enumerated
default. -/
theorem env_defaults_filled (p : JsPrims) (e : ProcessEnv) (v : Env)
    (h : envSchemaParse p e = .ok v) :
    (e.NODE_ENV = none → v.NODE_ENV = NodeEnv.development) ∧
    (e.NEXTAUTH_SECRET = none → v.NEXTAUTH_SECRET = "dev-secret") ∧
    (e.AUTH_TRUST_HOST = none → v.AUTH_TRUST_HOST = false) ∧
    (e.RATE_LIMIT_ENABLED = none → v.RATE_LIMIT_ENABLED = true) ∧
    (e.RATE_LIMIT_MAX_REQUESTS = none → v.RATE_LIMIT_MAX_REQUESTS = 100) ∧
    (e.RATE_LIMIT_WINDOW_SECONDS = none → v.RATE_LIMIT_WINDOW_SECONDS = 60) ∧
    (e.ANALYTICS_ENABLED = none → v.ANALYTICS_ENABLED = true) ∧
    (e.ANALYTICS_SINK = none → v.ANALYTICS_SINK = AnalyticsSink.log) ∧
    (e.LOG_LEVEL = none → v.LOG_LEVEL = LogLevel.INFO) ∧
    (e.LOG_FORMAT = none → v.LOG_FORMAT = LogFormat.json) ∧
    (e.LOG_INCLUDE_TIMESTAMP = none → v.LOG_INCLUDE_TIMESTAMP = true) ∧
    (e.DATABASE_QUERY_TIMEOUT = none → v.DATABASE_QUERY_TIMEOUT = 5000) ∧
    (e.CACHE_DEFAULT_TTL = none → v.CACHE_DEFAULT_TTL = 3600) ∧
    (e.ENABLE_PERFORMANCE_MONITORING = none → v.ENABLE_PERFORMANCE_MONITORING = true) ∧
    (e.SLOW_QUERY_THRESHOLD_MS = none → v.SLOW_QUERY_THRESHOLD_MS = 1000) := by
  obtain ⟨hb, -⟩ := envSchemaParse_ok h
  obtain ⟨c1, c2, c3, c4, c5, c6, c7, c8, c9, c10, c11, c12, c13, c14, c15, c16, c17, c18⟩ :=
    envSchemaBase_ok hb
  refine ⟨?_, ?_, ?_, ?_, ?_, ?_, ?_, ?_, ?_, ?_, ?_, ?_, ?_, ?_, ?_⟩
  · intro hx; rw [hx] at c1; exact (Except.ok.inj c1).symm
  · intro hx; rw [hx] at c2; exact (Except.ok.inj c2).symm
  · intro hx; rw [hx] at c4; exact (Except.ok.inj c4).symm
  · intro hx; rw [hx] at c7; exact (Except.ok.inj c7).symm
  · intro hx; rw [hx] at c8; exact (Except.ok.inj c8).symm
  · intro hx; rw [hx] at c9; exact (Except.ok.inj c9).symm
  · intro hx; rw [hx] at c10; exact (Except.ok.inj c10).symm
  · intro hx; rw [hx] at c11; exact (Except.ok.inj c11).symm
  · intro hx; rw [hx] at c12; exact (Except.ok.inj c12).symm
  · intro hx; rw [hx] at c13; exact (Except.ok.inj c13).symm
  · intro hx; rw [hx] at c14; exact (Except.ok.inj c14).symm
  · intro hx; rw [hx] at c15; exact (Except.ok.inj c15).symm
  · intro hx; rw [hx] at c16; exact (Except.ok.inj c16).symm
  · intro hx; rw [hx] at c17; exact (Except.ok.inj c17).symm
  · intro hx; rw [hx] at c18; exact (Except.ok.inj c18).symm

/-- C4 witness: the empty process configuration parses to the record of
defaults. -/
theorem env_defaults_filled_witness :
    defaultParsedEnv.NODE_ENV = NodeEnv.development ∧
    defaultParsedEnv.NEXTAUTH_SECRET = "dev-secret" ∧
    defaultParsedEnv.AUTH_TRUST_HOST = false ∧
    defaultParsedEnv.RATE_LIMIT_ENABLED = true ∧
    defaultParsedEnv.RATE_LIMIT_MAX_REQUESTS = 100 ∧
    defaultParsedEnv.RATE_LIMIT_WINDOW_SECONDS = 60 ∧
    defaultParsedEnv.ANALYTICS_ENABLED = true ∧
    defaultParsedEnv.ANALYTICS_SINK = AnalyticsSink.log ∧
    defaultParsedEnv.LOG_LEVEL = LogLevel.INFO ∧
    defaultParsedEnv.LOG_FORMAT = LogFormat.json ∧
    defaultParsedEnv.LOG_INCLUDE_TIMESTAMP = true ∧
    defaultParsedEnv.DATABASE_QUERY_TIMEOUT = 5000 ∧
    defaultParsedEnv.CACHE_DEFAULT_TTL = 3600 ∧
    defaultParsedEnv.ENABLE_PERFORMANCE_MONITORING = true ∧
    defaultParsedEnv.SLOW_QUERY_THRESHOLD_MS = 1000 := by
  have h := env_defaults_filled testPrims {} defaultParsedEnv (by decide)
  exact ⟨h.1 rfl, h.2.1 rfl, h.2.2.1 rfl, h.2.2.2.1 rfl, h.2.2.2.2.1 rfl,
    h.2.2.2.2.2.1 rfl, h.2.2.2.2.2.2.1 rfl, h.2.2.2.2.2.2.2.1 rfl,
    h.2.2.2.2.2.2.2.2.1 rfl, h.2.2.2.2.2.2.2.2.2.1 rfl,
    h.2.2.2.2.2.2.2.2.2.2.1 rfl, h.2.2.2.2.2.2.2.2.2.2.2.1 rfl,
    h.2.2.2.2.2.2.2.2.2.2.2.2.1 rfl, h.2.2.2.2.2.2.2.2.2.2.2.2.2.1 rfl,
    h.2.2.2.2.2.2.2.2.2.2.2.2.2.2 rfl⟩

/-- C9: when the rate-limit threshold variable is present and coerces to a
number below 1 or above 10000, `envSchema` validation fails and
`validateEnv` raises before any record is constructed. -/
theorem rate_limit_bounds_reject (p : JsPrims) (e : ProcessEnv) (s : String) (n : Int)
    (hs : e.RATE_LIMIT_MAX_REQUESTS = some s) (hn : p.toNumber s = some n)
    (hout : n < 1 ∨ 10000 < n) :
    isOkE (envSchemaParse p e) = false ∧ isOkE (validateEnv p e) = false := by
  have hbase : ∀ v : Env, envSchemaBase p e ≠ .ok v := by
    intro v hb
    obtain ⟨-, -, -, -, -, -, -, c8, -⟩ := envSchemaBase_ok hb
    rw [hs] at c8
    simp only [parseBoundedNumber, hn] at c8
    split_ifs at c8 with h1 h2
    rcases hout with ho | ho
    · omega
    · omega
  cases hb : envSchemaBase p e with
  | ok v => exact absurd hb (hbase v)
  | error is =>
    constructor
    · rw [envSchemaParse_base_error hb]; rfl
    · rw [validateEnv_parse_error (envSchemaParse_base_error hb)]; rfl

/-- C9 witness: the enumerated example `RATE_LIMIT_MAX_REQUESTS = "0"` is
rejected. -/
theorem rate_limit_bounds_reject_witness :
    isOkE (envSchemaParse testPrims { RATE_LIMIT_MAX_REQUESTS := some "0" }) = false ∧
    isOkE (validateEnv testPrims { RATE_LIMIT_MAX_REQUESTS := some "0" }) = false :=
  rate_limit_bounds_reject testPrims { RATE_LIMIT_MAX_REQUESTS := some "0" } "0" 0
    rfl (by decide) (Or.inl (by decide))

/-- C8 counterexample: on the empty process configuration, `validateEnv`
succeeds with the validated run mode defaulting to development, yet the
`debug` flag of the policy object is false, because the source compares the
RAW `process.env.NODE_ENV` with the literal instead of the validated run
mode; so the claimed equivalence fails at this input. -/
theorem debug_flag_claim_counterexample :
    validateEnv testPrims {} = Except.ok defaultParsedEnv ∧
    ¬(((mkAuthConfig {} defaultParsedEnv).debug = true) ↔
        defaultParsedEnv.NODE_ENV = NodeEnv.development) := by
  constructor
  · decide
  · intro hiff
    exact absurd (hiff.mpr rfl) (by decide)

/-- C8 amended: the debug flag equals the comparison of the raw run-mode
variable with the literal string development; consequently, whenever the
variable is present and validation succeeds, the flag is enabled exactly
when the validated run mode is development, but when the variable is
absent the flag is disabled even though the validated run mode defaults to
development. -/
theorem debug_flag_amended (p : JsPrims) (e : ProcessEnv) (v : Env)
    (h : validateEnv p e = .ok v) :
    ((mkAuthConfig e v).debug = (e.NODE_ENV == some "development")) ∧
    (∀ s : String, e.NODE_ENV = some s →
      ((mkAuthConfig e v).debug = true ↔ v.NODE_ENV = NodeEnv.development)) ∧
    (e.NODE_ENV = none →
      v.NODE_ENV = NodeEnv.development ∧ (mkAuthConfig e v).debug = false) := by
  obtain ⟨w, hw, hv⟩ := validateEnv_ok_inv h
  obtain ⟨hb, -⟩ := envSchemaParse_ok hw
  obtain ⟨c1, -⟩ := envSchemaBase_ok hb
  obtain ⟨f1, -⟩ := applyTrustHostOverride_fields e w
  have hvn : v.NODE_ENV = w.NODE_ENV := by rw [hv]; exact f1
  refine ⟨rfl, ?_, ?_⟩
  · intro s hs
    rw [hs] at c1
    constructor
    · intro hdbg
      have hbeq : (e.NODE_ENV == some "development") = true := hdbg
      rw [hs] at hbeq
      have hsd : s = "development" := by simpa using hbeq
      subst hsd
      have hdev : parseNodeEnv (some "development") = .ok NodeEnv.development := by decide
      rw [hdev] at c1
      rw [hvn]
      exact (Except.ok.inj c1).symm
    · intro hvd
      have hwd : w.NODE_ENV = NodeEnv.development := by rw [← hvn]; exact hvd
      rw [hwd] at c1
      have hsd : s = "development" := parseNodeEnv_ok_development_some c1
      show (e.NODE_ENV == some "development") = true
      rw [hs, hsd]
      rfl
  · intro hnone
    rw [hnone] at c1
    have hwd : w.NODE_ENV = NodeEnv.development := (Except.ok.inj c1).symm
    constructor
    · rw [hvn]; exact hwd
    · show (e.NODE_ENV == some "development") = false
      rw [hnone]
      rfl

/-- C8 amended witness: with the run mode explicitly set to development,
the flag mirrors the validated run mode; with it absent, the validated run
mode defaults to development while the flag stays false. -/
theorem debug_flag_amended_witness :
    ((mkAuthConfig { NODE_ENV := some "development" } defaultParsedEnv).debug = true ↔
      defaultParsedEnv.NODE_ENV = NodeEnv.development) ∧
    (defaultParsedEnv.NODE_ENV = NodeEnv.development ∧
      (mkAuthConfig {} defaultParsedEnv).debug = false) := by
  constructor
  · exact (debug_flag_amended testPrims { NODE_ENV := some "development" } defaultParsedEnv
      (by decide)).2.1 "development" rfl
  · exact (debug_flag_amended testPrims {} defaultParsedEnv (by decide)).2.2 rfl

/-- C10 witness: a concrete attempt with an absent password. -/
theorem authorize_missing_credentials_witness :
    authorize dbW verifyAlways (some ⟨some "user@example.com", none⟩) =
      .error "Please provide email and password" ∧
    authorizeWithTrace dbW verifyAlways (some ⟨some "user@example.com", none⟩) =
      (.error "Please provide email and password", []) ∧
    "Please provide email and password" ≠ "Invalid email or password" :=
  authorize_missing_credentials dbW verifyAlways
    (some ⟨some "user@example.com", none⟩) (Or.inr (by decide))

end EdgeNext
